import Mathlib

/-!
# Verification of the p2pool-v2 node actor (src/node/actor.rs, src/node/mod.rs)

A shallow embedding of the node's actor loop and swarm-event dispatch.
External collaborators (libp2p swarm primitives, the Chain/Store) are out of
scope in the source as well; their outcomes enter the model as an `Env` of
oracles, so every source-visible control-flow decision is reproduced exactly.

Channels are modelled with tokio semantics made explicit:
- an `Effect.replySend r` records one `tx.send(r)` attempt on the command's
  oneshot reply channel; it delivers `r` iff the caller still holds the
  receiver (`Env.replyReceiverLive`), and `.unwrap()` on a failed send is a
  panic that aborts the actor task;
- the one-shot stopping channel completes its receiver exactly once as soon
  as the sender either sends a value (`Effect.stopSignal`) or is dropped;
  `NodeActor::run` consumes `self`, so any exit of the loop (normal return or
  panic) drops `stopping_tx`.
-/

namespace P2PoolV2

/-- Peer identities are opaque; model them as naturals. -/
abbrev PeerId := Nat

/-- Share identifiers / `ShareBlock`s are opaque entities of the Chain collaborator. -/
abbrev ShareId := Nat

/-- The `MinerWorkbase` is opaque to the node. -/
abbrev Workbase := Nat

/-- A parsed `Multiaddr`, opaque to the node logic. -/
abbrev Multiaddr := Nat

/-- Serialized wire bytes (`Vec<u8>`). -/
abbrev Bytes := List Nat

/-- Rust `Result<(), Box<dyn Error>>` as it crosses the modelled boundaries. -/
inductive CResult where
  | ok
  | err (msg : String)
deriving DecidableEq, Repr

/-- The `InventoryMessage { have_shares }` from src/node/messages (shape fixed by
the constructor call in `Node::send_inventory`). -/
structure InventoryMessage where
  have_shares : List ShareId
deriving DecidableEq, Repr

/-- The wire `Message` union; the node logic under verification constructs only
the `Inventory` variant. -/
inductive Message where
  | Inventory (inv : InventoryMessage)
deriving DecidableEq, Repr

/-- The `Command` from crate::command as consumed by `NodeActor::run`; each Rust
variant also carries a oneshot reply sender, modelled by `Effect.replySend`
plus `Env.replyReceiverLive`. -/
inductive Command where
  | GetPeers
  | SendGossip (buf : Bytes)
  | SendToPeer (peer : PeerId) (msg : Message)
  | AddShare (share : ShareId)
  | StoreWorkbase (workbase : Workbase)
  | Shutdown
deriving DecidableEq, Repr

/-- The value carried by one reply-channel send. -/
inductive Reply where
  | peers (ps : List PeerId)
  | unit
  | result (r : CResult)
deriving DecidableEq, Repr

/-- Observable side effects of the node/actor, in program order. -/
inductive Effect where
  | log (s : String)
  | publish (topic : String) (buf : Bytes)
  | directSend (peer : PeerId) (msg : Message)
  | disconnect (peer : PeerId)
  | dial (addr : Multiaddr)
  | listen (addr : Multiaddr)
  | subscribe (topic : String)
  | chainAddShare (share : ShareId)
  | storeAddWorkbase (wb : Workbase)
  | replySend (r : Reply)
  | stopSignal
deriving DecidableEq, Repr

/-- The node state visible to the embedded logic: the swarm's connected-peer
set, the Chain collaborator's `tip`, the Kademlia address book maintained via
`add_address` / `remove_peer`, and the gossip topic. -/
structure NodeState where
  connectedPeers : List PeerId
  tip : Option ShareId
  routing : List (PeerId × Multiaddr)
  shareTopic : String
deriving DecidableEq, Repr

/-- Outcomes of the external collaborators and channel liveness, fixed for the
step under analysis. -/
structure Env where
  addShareResult : ShareId → CResult
  addWorkbaseResult : Workbase → CResult
  publishResult : Bytes → CResult
  dialResult : Multiaddr → CResult
  parseAddr : String → Except String Multiaddr
  behaviourResult : CResult
  tcpResult : CResult
  behaviourInstallResult : CResult
  listenResult : Multiaddr → CResult
  subscribeResult : CResult
  chainTip : Option ShareId
  replyReceiverLive : Bool
  stoppingReceiverLive : Bool

/-- The slice of `Config` that `Node::new` reads. -/
structure Config where
  listen_address : String
  dial_peers : List String
  store_path : String
deriving DecidableEq, Repr

/-- Whether the actor's loop continues, returned, or panicked on an `.unwrap()`. -/
inductive ActorOutcome where
  | running
  | stopped
  | panicked
deriving DecidableEq, Repr

/-- Result of the actor processing one dequeued item. -/
structure StepResult where
  state : NodeState
  effects : List Effect
  outcome : ActorOutcome
deriving DecidableEq, Repr

/-- Result of `Node::new`: `Ok(node)`, `Err(e)` to the caller, or
`std::process::exit`. -/
inductive NewOutcome where
  | ok (st : NodeState) (effects : List Effect)
  | err (e : String)
  | exited (code : Nat)
deriving DecidableEq, Repr

/-- What `NodeHandle::send_gossip` does before awaiting: either enqueue a
command or panic in the caller's context. -/
inductive EnqueueOutcome where
  | enqueued (c : Command)
  | panicked
deriving DecidableEq, Repr

/-! ## Node methods (src/node/mod.rs) -/

/-- Embeds `Node::send_gossip`: publish on the share topic; a publish failure is only
logged. -/
def Node.send_gossip (env : Env) (st : NodeState) (buf : Bytes) :
    NodeState × List Effect :=
  match env.publishResult buf with
  | CResult.ok => (st, [Effect.publish st.shareTopic buf])
  | CResult.err _ =>
      (st, [Effect.publish st.shareTopic buf, Effect.log "Failed to send share"])

/-- Embeds `Node::send_to_peer`: log, then a fire-and-forget request-response send. -/
def Node.send_to_peer (st : NodeState) (peer : PeerId) (msg : Message) :
    NodeState × List Effect :=
  (st, [Effect.log "Sending message to peer", Effect.directSend peer msg])

/-- Embeds `Node::shutdown`: disconnect every currently connected peer, each failure
swallowed by `unwrap_or_default`; always returns `Ok(())`. -/
def Node.shutdown (st : NodeState) : NodeState × List Effect × CResult :=
  (st, st.connectedPeers.map Effect.disconnect, CResult.ok)

/-- Embeds `Node::send_inventory`: if the chain tip is present, send an `Inventory`
with exactly that share id to the peer; otherwise do nothing. -/
def Node.send_inventory (st : NodeState) (peer : PeerId) :
    NodeState × List Effect :=
  match st.tip with
  | some tip =>
      let r := Node.send_to_peer st peer (Message.Inventory ⟨[tip]⟩)
      (r.1, Effect.log "Sending inventory message to peer" :: r.2)
  | none => (st, [])

/-- Embeds `Node::handle_connection_established`: log and trigger `send_inventory`. -/
def Node.handle_connection_established (st : NodeState) (peer : PeerId) :
    NodeState × List Effect :=
  let r := Node.send_inventory st peer
  (r.1, Effect.log "Connection established with peer" :: r.2)

/-! ## Swarm events and their dispatch (src/node/mod.rs) -/

/-- The `identify::Event`: the `Received` variant carries the peer's advertised
listen addresses; everything else is only logged. -/
inductive IdentifyEvent where
  | received (peer : PeerId) (protocol_version : String) (listen_addrs : List Multiaddr)
  | other
deriving DecidableEq, Repr

/-- The `mdns::Event`: `Discovered` carries (peer, address) pairs. -/
inductive MdnsEvent where
  | discovered (pairs : List (PeerId × Multiaddr))
  | other
deriving DecidableEq, Repr

/-- The `kad::QueryResult` as matched by `handle_kademlia_event`. -/
inductive QueryResult where
  | getClosestPeersOk (peers : List PeerId)
  | getClosestPeersErr (e : String)
  | other
deriving DecidableEq, Repr

/-- The `kad::Event` as matched by `handle_kademlia_event`. -/
inductive KademliaEvent where
  | routingUpdated (peer : PeerId) (is_new_peer : Bool) (addresses : List Multiaddr)
  | outboundQueryProgressed (result : QueryResult)
  | other
deriving DecidableEq, Repr

/-- The `gossipsub::Event`; the handler never inspects it, but inbound payloads
are carried so that the frame property quantifies over them. -/
inductive GossipsubEvent where
  | message (propagation_source : PeerId) (data : Bytes)
  | other
deriving DecidableEq, Repr

/-- The `RequestResponseEvent<Message, Message>`; likewise never inspected. -/
inductive RequestResponseEvent where
  | message (peer : PeerId) (msg : Message)
  | other
deriving DecidableEq, Repr

/-- The `P2PoolBehaviourEvent` dispatch union. -/
inductive BehaviourEvent where
  | mdns (e : MdnsEvent)
  | identify (e : IdentifyEvent)
  | kademlia (e : KademliaEvent)
  | gossipsub (e : GossipsubEvent)
  | requestResponse (e : RequestResponseEvent)
deriving DecidableEq, Repr

/-- The `SwarmEvent<P2PoolBehaviourEvent>`, restricted to the categories the
source matches on; `other` is the wildcard arm. -/
inductive SwarmEvent where
  | newListenAddr (addr : Multiaddr)
  | connectionEstablished (peer : PeerId)
  | connectionClosed (peer : PeerId)
  | behaviour (e : BehaviourEvent)
  | other
deriving DecidableEq, Repr

/-- Modelled from the spec: `P2PoolBehaviour::add_address` lives in
src/node/behaviour.rs, which is not among the given sources; the spec says
advertised addresses are registered with the routing table for future dial
targets. -/
def P2PoolBehaviour.add_address (st : NodeState) (peer : PeerId) (addr : Multiaddr) :
    NodeState :=
  { st with routing := st.routing ++ [(peer, addr)] }

/-- Modelled from the spec: `P2PoolBehaviour::remove_peer` lives in
src/node/behaviour.rs, which is not among the given sources; the spec says
connection close purges the per-peer routing-table entries. -/
def P2PoolBehaviour.remove_peer (st : NodeState) (peer : PeerId) : NodeState :=
  { st with routing := st.routing.filter (fun pa => pa.1 != peer) }

/-- Embeds `Node::handle_identify_event`: register each advertised address; other
identify events are only logged. -/
def Node.handle_identify_event (st : NodeState) (e : IdentifyEvent) :
    NodeState × List Effect :=
  match e with
  | IdentifyEvent.received peer _ addrs =>
      (addrs.foldl (fun s a => P2PoolBehaviour.add_address s peer a) st,
       [Effect.log "Identified Peer"])
  | IdentifyEvent.other => (st, [Effect.log "Other identify event"])

/-- One iteration of the `Discovered` loop in `Node::handle_mdns_event`:
skip already-connected peers, dial, and register the address on dial success. -/
def mdnsDiscoveredStep (env : Env) (acc : NodeState × List Effect)
    (pm : PeerId × Multiaddr) : NodeState × List Effect :=
  if acc.1.connectedPeers.contains pm.1 then acc
  else
    match env.dialResult pm.2 with
    | CResult.ok =>
        (P2PoolBehaviour.add_address acc.1 pm.1 pm.2, acc.2 ++ [Effect.dial pm.2])
    | CResult.err _ =>
        (acc.1, acc.2 ++ [Effect.dial pm.2, Effect.log "Failed to dial discovered peer"])

/-- Embeds `Node::handle_mdns_event`. -/
def Node.handle_mdns_event (env : Env) (st : NodeState) (e : MdnsEvent) :
    NodeState × List Effect :=
  match e with
  | MdnsEvent.discovered pairs =>
      pairs.foldl (mdnsDiscoveredStep env) (st, [Effect.log "Discovered peer"])
  | MdnsEvent.other => (st, [Effect.log "Other Mdns event"])

/-- Embeds `Node::handle_kademlia_event`: every arm only logs. -/
def Node.handle_kademlia_event (st : NodeState) (e : KademliaEvent) :
    NodeState × List Effect :=
  match e with
  | KademliaEvent.routingUpdated _ _ _ => (st, [Effect.log "Routing updated for peer"])
  | KademliaEvent.outboundQueryProgressed r =>
      match r with
      | QueryResult.getClosestPeersOk _ => (st, [Effect.log "Got closest peers"])
      | QueryResult.getClosestPeersErr _ => (st, [Effect.log "Failed to get closest peers"])
      | QueryResult.other => (st, [Effect.log "Other query result"])
  | KademliaEvent.other => (st, [Effect.log "Other Kademlia event"])

/-- Embeds `Node::handle_gossipsub_event`: the body is a single `info!`. -/
def Node.handle_gossipsub_event (st : NodeState) (_e : GossipsubEvent) :
    NodeState × List Effect :=
  (st, [Effect.log "Gossipsub event"])

/-- Embeds `Node::handle_request_response_event`: the body is a single `info!`. -/
def Node.handle_request_response_event (st : NodeState) (_e : RequestResponseEvent) :
    NodeState × List Effect :=
  (st, [Effect.log "Request-response event"])

/-- Embeds `Node::handle_swarm_event`. -/
def Node.handle_swarm_event (env : Env) (st : NodeState) (ev : SwarmEvent) :
    NodeState × List Effect :=
  match ev with
  | SwarmEvent.newListenAddr _ => (st, [Effect.log "Listening on"])
  | SwarmEvent.connectionEstablished peer =>
      let r := Node.handle_connection_established st peer
      (r.1, Effect.log "Connected to peer" :: r.2)
  | SwarmEvent.connectionClosed peer =>
      (P2PoolBehaviour.remove_peer st peer, [Effect.log "Disconnected from peer"])
  | SwarmEvent.behaviour be =>
      match be with
      | BehaviourEvent.mdns e => Node.handle_mdns_event env st e
      | BehaviourEvent.identify e => Node.handle_identify_event st e
      | BehaviourEvent.kademlia e => Node.handle_kademlia_event st e
      | BehaviourEvent.gossipsub e => Node.handle_gossipsub_event st e
      | BehaviourEvent.requestResponse e => Node.handle_request_response_event st e
  | SwarmEvent.other => (st, [])

/-! ## The actor step (`NodeActor::run`, src/node/actor.rs)

One iteration of the select loop in which the command-queue arm fired.
`some cmd` is a dequeued command, `none` is the queue observed closed.
Every `tx.send(..).unwrap()` of the source is an `Effect.replySend` whose
failure (dead receiver) panics the task. -/

def stepCommand (env : Env) (st : NodeState) (cmd : Option Command) : StepResult :=
  match cmd with
  | some Command.GetPeers =>
      { state := st,
        effects := [Effect.replySend (Reply.peers st.connectedPeers)],
        outcome := if env.replyReceiverLive then ActorOutcome.running else ActorOutcome.panicked }
  | some (Command.SendGossip buf) =>
      let g := Node.send_gossip env st buf
      { state := g.1,
        effects := g.2 ++ [Effect.replySend Reply.unit],
        outcome := if env.replyReceiverLive then ActorOutcome.running else ActorOutcome.panicked }
  | some (Command.SendToPeer peer msg) =>
      let s := Node.send_to_peer st peer msg
      { state := s.1,
        effects := s.2 ++ [Effect.replySend Reply.unit],
        outcome := if env.replyReceiverLive then ActorOutcome.running else ActorOutcome.panicked }
  | some Command.Shutdown =>
      match Node.shutdown st with
      | (st', effs, CResult.ok) =>
          { state := st',
            effects := effs ++ [Effect.replySend Reply.unit],
            outcome := if env.replyReceiverLive then ActorOutcome.stopped else ActorOutcome.panicked }
      | (st', effs, CResult.err _) =>
          { state := st', effects := effs, outcome := ActorOutcome.panicked }
  | some (Command.AddShare share) =>
      match env.addShareResult share with
      | CResult.ok =>
          { state := st,
            effects := [Effect.chainAddShare share,
                        Effect.replySend (Reply.result CResult.ok)],
            outcome := if env.replyReceiverLive then ActorOutcome.running else ActorOutcome.panicked }
      | CResult.err _ =>
          { state := st,
            effects := [Effect.chainAddShare share,
                        Effect.log "Error adding share to chain",
                        Effect.replySend (Reply.result (CResult.err "Error adding share to chain"))],
            outcome := if env.replyReceiverLive then ActorOutcome.running else ActorOutcome.panicked }
  | some (Command.StoreWorkbase wb) =>
      match env.addWorkbaseResult wb with
      | CResult.ok =>
          { state := st,
            effects := [Effect.storeAddWorkbase wb,
                        Effect.replySend (Reply.result CResult.ok)],
            outcome := if env.replyReceiverLive then ActorOutcome.running else ActorOutcome.panicked }
      | CResult.err _ =>
          { state := st,
            effects := [Effect.storeAddWorkbase wb,
                        Effect.log "Error storing workbase",
                        Effect.replySend (Reply.result (CResult.err "Error storing workbase"))],
            outcome := if env.replyReceiverLive then ActorOutcome.running else ActorOutcome.panicked }
  | none =>
      { state := st,
        effects := [Effect.log "Stopping node actor on channel close", Effect.stopSignal],
        outcome := if env.stoppingReceiverLive then ActorOutcome.stopped else ActorOutcome.panicked }

/-! ## Effect observers -/

/-- True exactly for `log` effects. -/
def isLogEffect : Effect → Bool
  | Effect.log _ => true
  | _ => false

/-- The values the actor attempted to send on the reply channel, in order. -/
def sentReplies (effs : List Effect) : List Reply :=
  effs.filterMap (fun e =>
    match e with
    | Effect.replySend r => some r
    | _ => none)

/-- Number of reply-channel send attempts. -/
def countReplySends (effs : List Effect) : Nat :=
  (sentReplies effs).length

/-- Peers a `disconnect_peer_id` was issued for, in order. -/
def disconnects (effs : List Effect) : List PeerId :=
  effs.filterMap (fun e =>
    match e with
    | Effect.disconnect p => some p
    | _ => none)

/-- Direct request-response sends, in order. -/
def directSends (effs : List Effect) : List (PeerId × Message) :=
  effs.filterMap (fun e =>
    match e with
    | Effect.directSend p m => some (p, m)
    | _ => none)

/-- Number of explicit `stopping_tx.send(())` attempts. -/
def countStopSignals (effs : List Effect) : Nat :=
  (effs.filter (fun e =>
    match e with
    | Effect.stopSignal => true
    | _ => false)).length

/-- How many times the stopping one-shot receiver completes after this step:
tokio's oneshot receiver completes exactly once as soon as the sender sends or
is dropped, and never again; `NodeActor::run` consumes `self`, so when its
outcome is a return or a panic the sender is either used or dropped. A dropped
receiver (`stoppingReceiverLive = false`) can no longer complete. -/
def stoppingCompletions (env : Env) (r : StepResult) : Nat :=
  if env.stoppingReceiverLive then
    (if r.outcome = ActorOutcome.running then 0 else 1)
  else 0

/-! ## The handle side (`NodeHandle`, src/node/actor.rs)

`rx.await` on the oneshot reply channel is modelled as `Option Reply`:
`some v` is Rust's `Ok(v)` (the actor's send was delivered), `none` is
`Err(RecvError)` (sender dropped without a delivered value). -/

/-- The value the caller's `rx.await` resolves to after the actor's step. -/
def recvOutcome (env : Env) (r : StepResult) : Option Reply :=
  if env.replyReceiverLive then (sentReplies r.effects).head? else none

/-- Embeds `NodeHandle::add_share` round trip, given that the actor dequeues and
processes the command: the source maps `rx.await` with
`Ok(_) => Ok(()), Err(e) => Err(e.into())` — the outer match discards the
inner `Result` the actor sent. -/
def NodeHandle.add_share (env : Env) (st : NodeState) (share : ShareId) : CResult :=
  match recvOutcome env (stepCommand env st (some (Command.AddShare share))) with
  | some _ => CResult.ok
  | none => CResult.err "oneshot receive error"

/-- Embeds `NodeHandle::store_workbase` round trip; same outer-match shape as
`add_share`. -/
def NodeHandle.store_workbase (env : Env) (st : NodeState) (wb : Workbase) : CResult :=
  match recvOutcome env (stepCommand env st (some (Command.StoreWorkbase wb))) with
  | some _ => CResult.ok
  | none => CResult.err "oneshot receive error"

/-- Embeds `NodeHandle::send_gossip` round trip after serialization succeeded with
`buf`, given that the actor processes the command. -/
def sendGossipRoundTrip (env : Env) (st : NodeState) (buf : Bytes) : CResult :=
  match recvOutcome env (stepCommand env st (some (Command.SendGossip buf))) with
  | some _ => CResult.ok
  | none => CResult.err "oneshot receive error"

/-- Embeds `NodeHandle::send_to_peer` round trip, given that the actor processes the
command. -/
def sendToPeerRoundTrip (env : Env) (st : NodeState) (peer : PeerId) (msg : Message) :
    CResult :=
  match recvOutcome env (stepCommand env st (some (Command.SendToPeer peer msg))) with
  | some _ => CResult.ok
  | none => CResult.err "oneshot receive error"

/-- The enqueue phase of `NodeHandle::send_gossip`:
`let buf = message.cbor_serialize().unwrap();` runs in the caller's context
before `command_tx.send(..)`, so a serialization failure panics there and no
command is ever enqueued. The CBOR encoder itself lives in
src/node/messages.rs (not among the given sources) and is passed in as the
`serialize` oracle. -/
def NodeHandle.send_gossip_submit (serialize : Message → Except String Bytes)
    (m : Message) : EnqueueOutcome :=
  match serialize m with
  | Except.ok buf => EnqueueOutcome.enqueued (Command.SendGossip buf)
  | Except.error _ => EnqueueOutcome.panicked

/-! ## `Node::new` (src/node/mod.rs) -/

/-- One iteration of the bootstrap-dial loop in `Node::new`: parse failure is
logged and skipped; dial failure is logged and skipped. -/
def perPeerDialEffects (env : Env) (pa : String) : List Effect :=
  match env.parseAddr pa with
  | Except.ok remote =>
      match env.dialResult remote with
      | CResult.ok => [Effect.dial remote, Effect.log "Dialed"]
      | CResult.err _ => [Effect.dial remote, Effect.log "Failed to dial"]
  | Except.error _ => [Effect.log "Invalid multiaddr"]

/-- The whole bootstrap-dial loop. -/
def dialAllEffects (env : Env) : List String → List Effect
  | [] => []
  | pa :: rest => perPeerDialEffects env pa ++ dialAllEffects env rest

/-- Embeds `Node::new`: behaviour-composition failure calls `std::process::exit(1)`;
the `?` on the TCP transport, the behaviour install, the listen-address parse
and `listen_on` return `Err` to the caller; bootstrap dials are best-effort;
subscribe failure is only logged. The constructed chain's `tip` comes from
the Chain collaborator (`env.chainTip`). -/
def Node.new (env : Env) (config : Config) : NewOutcome :=
  match env.behaviourResult with
  | CResult.err _ => NewOutcome.exited 1
  | CResult.ok =>
    match env.tcpResult with
    | CResult.err e => NewOutcome.err e
    | CResult.ok =>
      match env.behaviourInstallResult with
      | CResult.err e => NewOutcome.err e
      | CResult.ok =>
        match env.parseAddr config.listen_address with
        | Except.error e => NewOutcome.err e
        | Except.ok addr =>
          match env.listenResult addr with
          | CResult.err e => NewOutcome.err e
          | CResult.ok =>
            NewOutcome.ok
              { connectedPeers := [], tip := env.chainTip, routing := [],
                shareTopic := "share" }
              ([Effect.listen addr] ++ dialAllEffects env config.dial_peers ++
                (match env.subscribeResult with
                 | CResult.ok => [Effect.subscribe "share"]
                 | CResult.err _ =>
                     [Effect.subscribe "share",
                      Effect.log "Failed to subscribe to share topic"]))

/-! ## Concrete fixtures used by witnesses and counterexamples -/

/-- A node state with two connected peers and a non-empty chain tip. -/
def stW : NodeState :=
  { connectedPeers := [1, 2], tip := some 5, routing := [], shareTopic := "share" }

/-- An environment in which every collaborator succeeds and both oneshot
receivers are held. -/
def envAllOk : Env :=
  { addShareResult := fun _ => CResult.ok
    addWorkbaseResult := fun _ => CResult.ok
    publishResult := fun _ => CResult.ok
    dialResult := fun a => if a = 2 then CResult.err "connection refused" else CResult.ok
    parseAddr := fun s =>
      match s with
      | "bad" => Except.error "invalid multiaddr"
      | "undialable" => Except.ok 2
      | _ => Except.ok 1
    behaviourResult := CResult.ok
    tcpResult := CResult.ok
    behaviourInstallResult := CResult.ok
    listenResult := fun _ => CResult.ok
    subscribeResult := CResult.ok
    chainTip := some 5
    replyReceiverLive := true
    stoppingReceiverLive := true }

/-- An environment in which the Chain/Store collaborators and gossip publish
all fail, while the channels stay live. -/
def envFail : Env :=
  { envAllOk with
    addShareResult := fun _ => CResult.err "db failure"
    addWorkbaseResult := fun _ => CResult.err "db failure"
    publishResult := fun _ => CResult.err "InsufficientPeers" }

/-- An environment whose command caller dropped its reply receiver. -/
def envDeadReply : Env :=
  { envAllOk with replyReceiverLive := false }

/-- A configuration with one unparseable and one undialable bootstrap peer. -/
def configW : Config :=
  { listen_address := "good", dial_peers := ["bad", "undialable"], store_path := "store" }

/-- A CBOR encoder that always fails. -/
def serFail : Message → Except String Bytes := fun _ => Except.error "cbor error"

/-! ## Helper lemmas about the effect observers -/

theorem sentReplies_append (a b : List Effect) :
    sentReplies (a ++ b) = sentReplies a ++ sentReplies b := by
  simp [sentReplies]

theorem sentReplies_map_disconnect (ps : List PeerId) :
    sentReplies (ps.map Effect.disconnect) = [] := by
  induction ps with
  | nil => rfl
  | cons p ps ih => simp [sentReplies]

theorem disconnects_append (a b : List Effect) :
    disconnects (a ++ b) = disconnects a ++ disconnects b := by
  simp [disconnects]

theorem disconnects_map_disconnect (ps : List PeerId) :
    disconnects (ps.map Effect.disconnect) = ps := by
  induction ps with
  | nil => rfl
  | cons p ps ih => simpa [disconnects] using ih

/-! ## Claim theorems -/

/-- C1: the claim says `NodeHandle::add_share` / `store_workbase` mirror the
Chain/Store collaborator's result. The code violates it: with the collaborator
failing, the actor does send `Err("Error adding share to chain")` (resp.
`Err("Error storing workbase")`) on the reply channel, but the handle's
`match rx.await { Ok(_) => Ok(()), .. }` discards the inner `Result`, so the
caller receives `Ok(())` anyway. -/
theorem add_share_handle_discards_collaborator_failure :
    NodeHandle.add_share envFail stW 7 = CResult.ok ∧
    NodeHandle.store_workbase envFail stW 3 = CResult.ok ∧
    sentReplies (stepCommand envFail stW (some (Command.AddShare 7))).effects
      = [Reply.result (CResult.err "Error adding share to chain")] ∧
    sentReplies (stepCommand envFail stW (some (Command.StoreWorkbase 3))).effects
      = [Reply.result (CResult.err "Error storing workbase")] :=
  ⟨rfl, rfl, rfl, rfl⟩

/-- C3: every dequeued command, of every variant, results in exactly one send
attempt on its reply channel. -/
theorem every_dequeued_command_sends_one_reply (env : Env) (st : NodeState)
    (cmd : Command) :
    countReplySends (stepCommand env st (some cmd)).effects = 1 := by
  cases cmd with
  | GetPeers => rfl
  | SendGossip buf =>
      cases h : env.publishResult buf <;>
        simp [stepCommand, Node.send_gossip, h, countReplySends, sentReplies]
  | SendToPeer peer msg => rfl
  | AddShare share =>
      cases h : env.addShareResult share <;>
        simp [stepCommand, h, countReplySends, sentReplies]
  | StoreWorkbase wb =>
      cases h : env.addWorkbaseResult wb <;>
        simp [stepCommand, h, countReplySends, sentReplies]
  | Shutdown =>
      simp [stepCommand, Node.shutdown, countReplySends, sentReplies_append,
            sentReplies_map_disconnect, sentReplies]

/-- C4: on a connection-established event, exactly one Inventory message
holding exactly the current chain tip is sent to the new peer iff the tip is
non-empty; with an empty tip nothing is sent, and the node state is untouched
either way. -/
theorem inventory_sent_iff_tip_nonempty (env : Env) (st : NodeState) (peer : PeerId) :
    directSends (Node.handle_swarm_event env st (SwarmEvent.connectionEstablished peer)).2
      = (match st.tip with
         | some t => [(peer, Message.Inventory ⟨[t]⟩)]
         | none => []) ∧
    (Node.handle_swarm_event env st (SwarmEvent.connectionEstablished peer)).1 = st := by
  cases h : st.tip <;>
    simp [Node.handle_swarm_event, Node.handle_connection_established,
          Node.send_inventory, Node.send_to_peer, h, directSends]

/-- C9: the gossipsub, request-response and Kademlia handlers only log: the
node state is returned unchanged and every emitted effect is a log entry
(no message decoding, no chain call, no send, no routing change). -/
theorem inbound_gossip_rr_kad_handlers_log_only (st : NodeState)
    (ge : GossipsubEvent) (ke : KademliaEvent) (re : RequestResponseEvent) :
    (Node.handle_gossipsub_event st ge).1 = st ∧
    (Node.handle_gossipsub_event st ge).2.all isLogEffect = true ∧
    (Node.handle_kademlia_event st ke).1 = st ∧
    (Node.handle_kademlia_event st ke).2.all isLogEffect = true ∧
    (Node.handle_request_response_event st re).1 = st ∧
    (Node.handle_request_response_event st re).2.all isLogEffect = true := by
  refine ⟨rfl, rfl, ?_, ?_, rfl, rfl⟩ <;>
    cases ke with
    | routingUpdated peer isNew addrs => rfl
    | outboundQueryProgressed r => cases r <;> rfl
    | other => rfl

/-- C2: when a Shutdown command is processed and the caller still awaits its
reply, the actor issues a disconnect for exactly the peers connected at that
moment, attempts exactly one reply send, returns from its loop, and the
stopping one-shot completes exactly once (here by the sender being dropped on
return; the explicit `stopping_tx.send` runs only on the queue-closed path). -/
theorem shutdown_disconnects_all_replies_once_and_stops (env : Env) (st : NodeState)
    (hr : env.replyReceiverLive = true) (hs : env.stoppingReceiverLive = true) :
    disconnects (stepCommand env st (some Command.Shutdown)).effects = st.connectedPeers ∧
    countReplySends (stepCommand env st (some Command.Shutdown)).effects = 1 ∧
    (stepCommand env st (some Command.Shutdown)).outcome = ActorOutcome.stopped ∧
    stoppingCompletions env (stepCommand env st (some Command.Shutdown)) = 1 := by
  have heff : (stepCommand env st (some Command.Shutdown)).effects
      = st.connectedPeers.map Effect.disconnect ++ [Effect.replySend Reply.unit] := rfl
  refine ⟨?_, ?_, ?_, ?_⟩
  · rw [heff, disconnects_append, disconnects_map_disconnect]
    simp [disconnects]
  · rw [countReplySends, heff, sentReplies_append, sentReplies_map_disconnect]
    simp [sentReplies]
  · simp [stepCommand, Node.shutdown, hr]
  · simp [stepCommand, Node.shutdown, stoppingCompletions, hr, hs]

/-- C2 witness: the shutdown theorem applied at a state with two connected
peers and live receivers. -/
theorem shutdown_disconnects_all_replies_once_and_stops_witness :
    disconnects (stepCommand envAllOk stW (some Command.Shutdown)).effects
      = stW.connectedPeers ∧
    countReplySends (stepCommand envAllOk stW (some Command.Shutdown)).effects = 1 ∧
    (stepCommand envAllOk stW (some Command.Shutdown)).outcome = ActorOutcome.stopped ∧
    stoppingCompletions envAllOk (stepCommand envAllOk stW (some Command.Shutdown)) = 1 :=
  shutdown_disconnects_all_replies_once_and_stops envAllOk stW rfl rfl

/-- C5: when the command queue is observed closed, the actor issues no
disconnect, sends the explicit termination signal exactly once, and returns;
the stopping one-shot completes exactly once. -/
theorem queue_closed_stops_without_disconnect (env : Env) (st : NodeState)
    (hs : env.stoppingReceiverLive = true) :
    disconnects (stepCommand env st none).effects = [] ∧
    countStopSignals (stepCommand env st none).effects = 1 ∧
    (stepCommand env st none).outcome = ActorOutcome.stopped ∧
    stoppingCompletions env (stepCommand env st none) = 1 := by
  refine ⟨rfl, rfl, ?_, ?_⟩
  · simp [stepCommand, hs]
  · simp [stepCommand, stoppingCompletions, hs]

/-- C5 witness: the queue-closed theorem at a state with connected peers. -/
theorem queue_closed_stops_without_disconnect_witness :
    disconnects (stepCommand envAllOk stW none).effects = [] ∧
    countStopSignals (stepCommand envAllOk stW none).effects = 1 ∧
    (stepCommand envAllOk stW none).outcome = ActorOutcome.stopped ∧
    stoppingCompletions envAllOk (stepCommand envAllOk stW none) = 1 :=
  queue_closed_stops_without_disconnect envAllOk stW rfl

/-- C6: `send_gossip` and `send_to_peer` round trips return success whenever
the actor processes the command and the caller awaits the reply, for every
publish outcome (including failure and zero subscribers) and every direct
send; the actor keeps running. -/
theorem send_gossip_and_to_peer_always_succeed (env : Env) (st : NodeState)
    (buf : Bytes) (peer : PeerId) (msg : Message)
    (hr : env.replyReceiverLive = true) :
    sendGossipRoundTrip env st buf = CResult.ok ∧
    sendToPeerRoundTrip env st peer msg = CResult.ok ∧
    (stepCommand env st (some (Command.SendGossip buf))).outcome = ActorOutcome.running ∧
    (stepCommand env st (some (Command.SendToPeer peer msg))).outcome
      = ActorOutcome.running := by
  refine ⟨?_, ?_, ?_, ?_⟩
  · cases h : env.publishResult buf <;>
      simp [sendGossipRoundTrip, recvOutcome, stepCommand, Node.send_gossip, h, hr,
            sentReplies]
  · simp [sendToPeerRoundTrip, recvOutcome, stepCommand, Node.send_to_peer, hr,
          sentReplies]
  · simp [stepCommand, hr]
  · simp [stepCommand, hr]

/-- C6 witness: the masking theorem in an environment whose gossip publish
fails, at a concrete buffer, peer and message. -/
theorem send_gossip_and_to_peer_always_succeed_witness :
    envFail.publishResult [1, 2, 3] = CResult.err "InsufficientPeers" ∧
    (sendGossipRoundTrip envFail stW [1, 2, 3] = CResult.ok ∧
     sendToPeerRoundTrip envFail stW 1 (Message.Inventory ⟨[5]⟩) = CResult.ok ∧
     (stepCommand envFail stW (some (Command.SendGossip [1, 2, 3]))).outcome
       = ActorOutcome.running ∧
     (stepCommand envFail stW (some (Command.SendToPeer 1 (Message.Inventory ⟨[5]⟩)))).outcome
       = ActorOutcome.running) :=
  ⟨rfl, send_gossip_and_to_peer_always_succeed envFail stW [1, 2, 3] 1
          (Message.Inventory ⟨[5]⟩) rfl⟩

/-- C8: if the caller dropped its reply receiver before the actor processes
its command, the `.unwrap()` on the failed reply send panics the actor, for
every command variant. -/
theorem dropped_reply_receiver_panics_actor (env : Env) (st : NodeState)
    (cmd : Command) (hr : env.replyReceiverLive = false) :
    (stepCommand env st (some cmd)).outcome = ActorOutcome.panicked := by
  cases cmd with
  | GetPeers => simp [stepCommand, hr]
  | SendGossip buf => simp [stepCommand, hr]
  | SendToPeer peer msg => simp [stepCommand, hr]
  | AddShare share =>
      cases h : env.addShareResult share <;> simp [stepCommand, h, hr]
  | StoreWorkbase wb =>
      cases h : env.addWorkbaseResult wb <;> simp [stepCommand, h, hr]
  | Shutdown => simp [stepCommand, Node.shutdown, hr]

/-- C8 witness: a dropped reply receiver is fatal at a concrete command. -/
theorem dropped_reply_receiver_panics_actor_witness :
    envDeadReply.replyReceiverLive = false ∧
    (stepCommand envDeadReply stW (some Command.GetPeers)).outcome
      = ActorOutcome.panicked :=
  ⟨rfl, dropped_reply_receiver_panics_actor envDeadReply stW Command.GetPeers rfl⟩

/-- C10: if CBOR serialization fails, `NodeHandle::send_gossip` panics in the
caller's context and no command is enqueued. -/
theorem serialize_failure_panics_before_enqueue
    (serialize : Message → Except String Bytes) (m : Message) (e : String)
    (h : serialize m = Except.error e) :
    NodeHandle.send_gossip_submit serialize m = EnqueueOutcome.panicked ∧
    ∀ c, NodeHandle.send_gossip_submit serialize m ≠ EnqueueOutcome.enqueued c := by
  refine ⟨?_, ?_⟩
  · simp [NodeHandle.send_gossip_submit, h]
  · intro c
    simp [NodeHandle.send_gossip_submit, h]

/-- C10 witness: the always-failing encoder panics the submit phase on a
concrete message. -/
theorem serialize_failure_panics_before_enqueue_witness :
    serFail (Message.Inventory ⟨[5]⟩) = Except.error "cbor error" ∧
    (NodeHandle.send_gossip_submit serFail (Message.Inventory ⟨[5]⟩)
       = EnqueueOutcome.panicked ∧
     ∀ c, NodeHandle.send_gossip_submit serFail (Message.Inventory ⟨[5]⟩)
       ≠ EnqueueOutcome.enqueued c) :=
  ⟨rfl, serialize_failure_panics_before_enqueue serFail (Message.Inventory ⟨[5]⟩)
          "cbor error" rfl⟩

/-- C7: during construction (with behaviour composition, the TCP transport
and the behaviour install succeeding, and the listen address parsing), a
bind failure of the listen address propagates as `Err` to the caller, while
construction succeeds whatever the bootstrap peers' parse and dial oracles
return; a peer whose address fails to parse contributes only a log, and a
peer whose dial fails contributes the dial attempt plus a log. -/
theorem construction_listen_fatal_bootstrap_best_effort (env : Env) (config : Config)
    (a : Multiaddr)
    (hb : env.behaviourResult = CResult.ok)
    (ht : env.tcpResult = CResult.ok)
    (hi : env.behaviourInstallResult = CResult.ok)
    (hp : env.parseAddr config.listen_address = Except.ok a) :
    (env.listenResult a = CResult.ok →
       ∃ st effs, Node.new env config = NewOutcome.ok st effs) ∧
    (∀ e, env.listenResult a = CResult.err e →
       Node.new env config = NewOutcome.err e) ∧
    (∀ pa m, env.parseAddr pa = Except.error m →
       perPeerDialEffects env pa = [Effect.log "Invalid multiaddr"]) ∧
    (∀ pa r e, env.parseAddr pa = Except.ok r → env.dialResult r = CResult.err e →
       perPeerDialEffects env pa = [Effect.dial r, Effect.log "Failed to dial"]) := by
  refine ⟨?_, ?_, ?_, ?_⟩
  · intro hl
    have h1 : Node.new env config
        = NewOutcome.ok
            { connectedPeers := [], tip := env.chainTip, routing := [],
              shareTopic := "share" }
            ([Effect.listen a] ++ dialAllEffects env config.dial_peers ++
              (match env.subscribeResult with
               | CResult.ok => [Effect.subscribe "share"]
               | CResult.err _ =>
                   [Effect.subscribe "share",
                    Effect.log "Failed to subscribe to share topic"])) := by
      simp [Node.new, hb, ht, hi, hp, hl]
    exact ⟨_, _, h1⟩
  · intro e hl
    simp [Node.new, hb, ht, hi, hp, hl]
  · intro pa m hpa
    simp [perPeerDialEffects, hpa]
  · intro pa r e hpa hd
    simp [perPeerDialEffects, hpa, hd]

/-- C7 witness: the construction theorem in an environment with one
unparseable and one undialable bootstrap peer and a bindable listen
address. -/
theorem construction_listen_fatal_bootstrap_best_effort_witness :
    envAllOk.behaviourResult = CResult.ok ∧
    envAllOk.parseAddr configW.listen_address = Except.ok 1 ∧
    ((envAllOk.listenResult 1 = CResult.ok →
        ∃ st effs, Node.new envAllOk configW = NewOutcome.ok st effs) ∧
     (∀ e, envAllOk.listenResult 1 = CResult.err e →
        Node.new envAllOk configW = NewOutcome.err e) ∧
     (∀ pa m, envAllOk.parseAddr pa = Except.error m →
        perPeerDialEffects envAllOk pa = [Effect.log "Invalid multiaddr"]) ∧
     (∀ pa r e, envAllOk.parseAddr pa = Except.ok r →
        envAllOk.dialResult r = CResult.err e →
        perPeerDialEffects envAllOk pa
          = [Effect.dial r, Effect.log "Failed to dial"])) :=
  ⟨rfl, rfl,
   construction_listen_fatal_bootstrap_best_effort envAllOk configW 1 rfl rfl rfl rfl⟩

end P2PoolV2
